import Mathlib

/-
Shallow embedding of the auction escrow program
(src/program/src/processor.rs and src/program/src/error.rs).

External accounts are identified by their public keys, modelled as
natural numbers; the null identity (Pubkey::default(), all zero bytes)
is 0.  Each processor entry point is translated into a pure function
that returns the ordered list of external effects it issues (token
transfers, authority changes, account closes, record writes, lamport
moves, log messages) together with the operation's result.  Calls into
the external token service can succeed or fail; an environment
`Effect → Bool` gives the verdict of each issued call.  Where the
source checks an invoke result (the `?` operator) a negative verdict
aborts the operation with `ExternalCallFailed`; where the source drops
the result of `invoke_signed`, the verdict is never consulted.

The record layout and its (de)serialization live in files of the
repository that are not part of the sources here (state.rs,
instruction.rs); they are modelled from the spec: `Auction` mirrors
the Auction Record field list, `unpack` succeeds exactly on records
whose `is_initialized` flag is set, and `unpack_unchecked` parses any
record.  Rent exemption and the clock are environment inputs.
Unchecked i64 additions and subtractions of the source wrap into the
signed 64-bit range (`i64_wrap`), as a release build's two's
complement arithmetic does; the one checked_add keeps its explicit
u64 overflow test.
-/

abbrev Pubkey := Nat

def Pubkey.default : Pubkey := 0

/-- The spl_token program id, an abstract distinguished key: every
spl_token instruction constructor checks that the supplied token
program account carries this id and fails otherwise. -/
def spl_token_id : Pubkey := 961

/-- `auction_duration_sec as i64`: reinterpret an unsigned 64-bit
value as a signed one. -/
def i64_of_u64 (n : Nat) : Int :=
  if n < 2 ^ 63 then (n : Int) else (n : Int) - 2 ^ 64

/-- Reduce an integer into the signed 64-bit range, the two's
complement wrap that the source's i64 addition (processor.rs line 87)
and subtraction (line 339) perform in a release build. -/
def i64_wrap (z : Int) : Int := (z + 2 ^ 63) % 2 ^ 64 - 2 ^ 63

/-- The error enumeration of src/program/src/error.rs. -/
inductive AuctionError
  | InvalidInstruction
  | NotRentExempt
  | ExpectedAmountMismatch
  | AmountOverflow
  | InsufficientBidPrice
  | AlreadyBid
  | InactiveAuction
  | ActiveAuction
  | NoBidderFound
  deriving DecidableEq, Repr

/-- The results a processor function can report: a custom auction
error or one of the generic program errors used in processor.rs.
`ExternalCallFailed` stands for the (opaque) error of a checked
invoke of the external token service. -/
inductive ProgramError
  | Custom (e : AuctionError)
  | MissingRequiredSignature
  | AccountAlreadyInitialized
  | UninitializedAccount
  | InvalidAccountData
  | IncorrectProgramId
  | ExternalCallFailed
  deriving DecidableEq, Repr

/-- The Auction Record (spec section 3; struct Auction of state.rs,
modelled from the spec: the field list, in order). -/
structure Auction where
  is_initialized : Bool
  exhibitor_pubkey : Pubkey
  exhibiting_nft_temp_pubkey : Pubkey
  exhibitor_ft_receiving_pubkey : Pubkey
  price : Nat
  end_at : Int
  highest_bidder_pubkey : Pubkey
  highest_bidder_ft_temp_pubkey : Pubkey
  highest_bidder_ft_returning_pubkey : Pubkey
  deriving DecidableEq, Repr

/-- The externally visible steps an operation issues, in order. -/
inductive Effect
  | transfer (source destination authority : Pubkey) (amount : Nat)
  | set_authority (account new_authority current_authority : Pubkey)
  | close_account (account destination authority : Pubkey)
  | write_record (a : Auction)
  | credit_lamports (destination : Pubkey) (amount : Nat)
  | clear_escrow_storage
  | msg_remaining (seconds : Int)
  deriving DecidableEq, Repr

/-- Accounts supplied to Exhibit (Open), in the order process_exhibit
reads them. -/
structure ExhibitAccounts where
  exhibitor_is_signer : Bool
  exhibitor : Pubkey
  exhibitor_nft : Pubkey
  exhibitor_nft_temp : Pubkey
  exhibitor_ft_receiving : Pubkey
  token_program : Pubkey
  deriving DecidableEq, Repr

/-- Accounts supplied to Bid, in the order process_bid reads them. -/
structure BidAccounts where
  bidder_is_signer : Bool
  bidder : Pubkey
  highest_bidder : Pubkey
  highest_bidder_ft_temp : Pubkey
  highest_bidder_ft_returning : Pubkey
  bidder_ft_temp : Pubkey
  bidder_ft : Pubkey
  token_program : Pubkey
  deriving DecidableEq, Repr

/-- Accounts supplied to Cancel, in the order process_cancel reads
them. -/
structure CancelAccounts where
  exhibitor_is_signer : Bool
  exhibitor : Pubkey
  exhibiting_nft_temp : Pubkey
  exhibiting_nft_returning : Pubkey
  token_program : Pubkey
  deriving DecidableEq, Repr

/-- Accounts supplied to Close, in the order process_close reads
them. -/
structure CloseAccounts where
  highest_bidder_is_signer : Bool
  highest_bidder : Pubkey
  exhibitor : Pubkey
  exhibiting_nft_temp : Pubkey
  exhibitor_ft_receiving : Pubkey
  highest_bidder_ft_temp : Pubkey
  highest_bidder_nft_receiving : Pubkey
  token_program : Pubkey
  deriving DecidableEq, Repr

/-- Processor::close_temporary_ft.  It builds a close_account
instruction (which fails only on a wrong token program id) and issues
it with invoke_signed, whose result the source drops: the verdict of
the external call is never consulted, so the function reports success
whenever the instruction could be built. -/
def close_temporary_ft (token_program ft_temp rent_dest pda : Pubkey) :
    List Effect × Except ProgramError Unit :=
  if token_program ≠ spl_token_id then ([], .error .IncorrectProgramId)
  else ([Effect.close_account ft_temp rent_dest pda], .ok ())

/-- Processor::close_escrow.  The close_account invoke_signed result
is dropped by the source; afterwards the escrow account's lamports are
added to the exhibitor's with checked_add (AmountOverflow on u64
overflow), the escrow lamports are zeroed and its data cleared. -/
def close_escrow (token_program nft_temp exhibitor pda : Pubkey)
    (exhibitor_lamports escrow_lamports : Nat) :
    List Effect × Except ProgramError Unit :=
  if token_program ≠ spl_token_id then ([], .error .IncorrectProgramId)
  else if exhibitor_lamports + escrow_lamports < 2 ^ 64 then
    ([Effect.close_account nft_temp exhibitor pda,
      Effect.credit_lamports exhibitor escrow_lamports,
      Effect.clear_escrow_storage], .ok ())
  else
    ([Effect.close_account nft_temp exhibitor pda],
     .error (.Custom .AmountOverflow))

/-- Processor::process_exhibit (Open).  `rent_exempt` is the verdict
of Rent::is_exempt on the escrow account, `stored` the record parsed
by Auction::unpack_unchecked from the escrow data, `now` the clock's
unix timestamp.  The record is packed before the two token calls, so
the write_record effect precedes them. -/
def process_exhibit (env : Effect → Bool) (acc : ExhibitAccounts)
    (rent_exempt : Bool) (stored : Auction) (now : Int) (pda : Pubkey)
    (initial_price auction_duration_sec : Nat) :
    List Effect × Except ProgramError Auction :=
  if !acc.exhibitor_is_signer then ([], .error .MissingRequiredSignature)
  else if !rent_exempt then ([], .error (.Custom .NotRentExempt))
  else if stored.is_initialized then ([], .error .AccountAlreadyInitialized)
  else
    let new_record := { stored with
      is_initialized := true
      exhibitor_pubkey := acc.exhibitor
      exhibiting_nft_temp_pubkey := acc.exhibitor_nft_temp
      exhibitor_ft_receiving_pubkey := acc.exhibitor_ft_receiving
      price := initial_price
      end_at := i64_wrap (now + i64_of_u64 auction_duration_sec) }
    if acc.token_program ≠ spl_token_id then
      ([Effect.write_record new_record], .error .IncorrectProgramId)
    else
      let t1 := Effect.transfer acc.exhibitor_nft acc.exhibitor_nft_temp
        acc.exhibitor 1
      if !env t1 then
        ([Effect.write_record new_record, t1], .error .ExternalCallFailed)
      else
        let sa := Effect.set_authority acc.exhibitor_nft_temp pda acc.exhibitor
        if !env sa then
          ([Effect.write_record new_record, t1, sa], .error .ExternalCallFailed)
        else
          ([Effect.write_record new_record, t1, sa], .ok new_record)

/-- Processor::process_bid.  The refund transfer to the previous
highest bidder is issued with invoke_signed whose result the source
drops, so `env`'s verdict on it is never consulted; the two calls
moving the new bidder's funds are checked with `?`. -/
def process_bid (env : Effect → Bool) (acc : BidAccounts) (auction : Auction)
    (now : Int) (pda : Pubkey) (price : Nat) :
    List Effect × Except ProgramError Auction :=
  if !acc.bidder_is_signer then ([], .error .MissingRequiredSignature)
  else if !auction.is_initialized then ([], .error .UninitializedAccount)
  else if auction.end_at ≤ now then ([], .error (.Custom .InactiveAuction))
  else if price ≤ auction.price then
    ([], .error (.Custom .InsufficientBidPrice))
  else if auction.highest_bidder_ft_temp_pubkey ≠ acc.highest_bidder_ft_temp then
    ([], .error (.Custom .InvalidInstruction))
  else if auction.highest_bidder_ft_returning_pubkey ≠
      acc.highest_bidder_ft_returning then
    ([], .error (.Custom .InvalidInstruction))
  else if auction.highest_bidder_pubkey ≠ acc.highest_bidder then
    ([], .error (.Custom .InvalidInstruction))
  else if auction.highest_bidder_pubkey = acc.bidder then
    ([], .error (.Custom .AlreadyBid))
  else if acc.token_program ≠ spl_token_id then ([], .error .IncorrectProgramId)
  else
    let t1 := Effect.transfer acc.bidder_ft acc.bidder_ft_temp acc.bidder price
    if !env t1 then ([t1], .error .ExternalCallFailed)
    else
      let sa := Effect.set_authority acc.bidder_ft_temp pda acc.bidder
      if !env sa then ([t1, sa], .error .ExternalCallFailed)
      else
        let new_auction := { auction with
          price := price
          highest_bidder_pubkey := acc.bidder
          highest_bidder_ft_temp_pubkey := acc.bidder_ft_temp
          highest_bidder_ft_returning_pubkey := acc.bidder_ft }
        if auction.highest_bidder_pubkey ≠ Pubkey.default then
          let refund := Effect.transfer acc.highest_bidder_ft_temp
            acc.highest_bidder_ft_returning pda auction.price
          match close_temporary_ft acc.token_program acc.highest_bidder_ft_temp
              acc.highest_bidder pda with
          | (tr, .error e) => ([t1, sa, refund] ++ tr, .error e)
          | (tr, .ok _) =>
            ([t1, sa, refund] ++ tr ++ [Effect.write_record new_auction],
             .ok new_auction)
        else
          ([t1, sa, Effect.write_record new_auction], .ok new_auction)

/-- Processor::process_cancel.  `nft_temp_amount` is the token amount
parsed from the exhibiting NFT temporary account; the lamport
arguments feed close_escrow. -/
def process_cancel (env : Effect → Bool) (acc : CancelAccounts)
    (auction : Auction) (pda : Pubkey) (nft_temp_amount : Nat)
    (exhibitor_lamports escrow_lamports : Nat) :
    List Effect × Except ProgramError Unit :=
  if !acc.exhibitor_is_signer then ([], .error .MissingRequiredSignature)
  else if !auction.is_initialized then ([], .error .UninitializedAccount)
  else if auction.exhibitor_pubkey ≠ acc.exhibitor then
    ([], .error .InvalidAccountData)
  else if auction.exhibiting_nft_temp_pubkey ≠ acc.exhibiting_nft_temp then
    ([], .error .InvalidAccountData)
  else if auction.highest_bidder_pubkey ≠ Pubkey.default then
    ([], .error (.Custom .AlreadyBid))
  else if acc.token_program ≠ spl_token_id then ([], .error .IncorrectProgramId)
  else
    let t := Effect.transfer acc.exhibiting_nft_temp acc.exhibiting_nft_returning
      pda nft_temp_amount
    if !env t then ([t], .error .ExternalCallFailed)
    else
      let r := close_escrow acc.token_program acc.exhibiting_nft_temp
        acc.exhibitor pda exhibitor_lamports escrow_lamports
      (t :: r.1, r.2)

/-- Processor::process_close (settlement). -/
def process_close (env : Effect → Bool) (acc : CloseAccounts)
    (auction : Auction) (now : Int) (pda : Pubkey)
    (nft_temp_amount ft_temp_amount : Nat)
    (exhibitor_lamports escrow_lamports : Nat) :
    List Effect × Except ProgramError Unit :=
  if !acc.highest_bidder_is_signer then ([], .error .MissingRequiredSignature)
  else if !auction.is_initialized then ([], .error .UninitializedAccount)
  else if now < auction.end_at then
    ([Effect.msg_remaining (i64_wrap (auction.end_at - now))],
     .error (.Custom .ActiveAuction))
  else if auction.exhibitor_pubkey ≠ acc.exhibitor then
    ([], .error .InvalidAccountData)
  else if auction.exhibiting_nft_temp_pubkey ≠ acc.exhibiting_nft_temp then
    ([], .error .InvalidAccountData)
  else if auction.exhibitor_ft_receiving_pubkey ≠ acc.exhibitor_ft_receiving then
    ([], .error .InvalidAccountData)
  else if auction.highest_bidder_ft_temp_pubkey ≠ acc.highest_bidder_ft_temp then
    ([], .error .InvalidAccountData)
  else if auction.highest_bidder_pubkey ≠ acc.highest_bidder then
    ([], .error .InvalidAccountData)
  else if acc.token_program ≠ spl_token_id then ([], .error .IncorrectProgramId)
  else
    let t1 := Effect.transfer acc.exhibiting_nft_temp
      acc.highest_bidder_nft_receiving pda nft_temp_amount
    if !env t1 then ([t1], .error .ExternalCallFailed)
    else
      let t2 := Effect.transfer acc.highest_bidder_ft_temp
        acc.exhibitor_ft_receiving pda ft_temp_amount
      if !env t2 then ([t1, t2], .error .ExternalCallFailed)
      else
        match close_temporary_ft acc.token_program acc.highest_bidder_ft_temp
            acc.highest_bidder pda with
        | (tr, .error e) => ([t1, t2] ++ tr, .error e)
        | (tr, .ok _) =>
          let r := close_escrow acc.token_program acc.exhibiting_nft_temp
            acc.exhibitor pda exhibitor_lamports escrow_lamports
          ([t1, t2] ++ tr ++ r.1, r.2)

deriving instance DecidableEq for Except

/-- An environment in which every external token call succeeds. -/
def env_all : Effect → Bool := fun _ => true

/-- An environment that fails exactly the refund transfer of 150
units from temporary account 11 to refund destination 12 signed by
the authority 99, and approves every other call. -/
def env_no_refund : Effect → Bool := fun e =>
  match e with
  | Effect.transfer 11 12 99 150 => false
  | _ => true

/-- Bid accounts of the second bidder (key 2, funds in 22, temporary
custody 21), referencing the first bidder (key 1, temporary custody
11, refund destination 12). -/
def acc_bid2 : BidAccounts :=
  { bidder_is_signer := true
    bidder := 2
    highest_bidder := 1
    highest_bidder_ft_temp := 11
    highest_bidder_ft_returning := 12
    bidder_ft_temp := 21
    bidder_ft := 22
    token_program := spl_token_id }

/-- The record after the first bidder's accepted Bid(150) on an
auction opened with initial price 100 ending at 4600. -/
def auction_after_bid1 : Auction :=
  { is_initialized := true
    exhibitor_pubkey := 5
    exhibiting_nft_temp_pubkey := 6
    exhibitor_ft_receiving_pubkey := 7
    price := 150
    end_at := 4600
    highest_bidder_pubkey := 1
    highest_bidder_ft_temp_pubkey := 11
    highest_bidder_ft_returning_pubkey := 12 }

/-- The record after the second bidder's accepted Bid(200). -/
def auction_after_bid2 : Auction :=
  { auction_after_bid1 with
    price := 200
    highest_bidder_pubkey := 2
    highest_bidder_ft_temp_pubkey := 21
    highest_bidder_ft_returning_pubkey := 22 }

/-- Helper: a Bid that returns ok passed the strict price comparison,
and the record it wrote is the old record with the new price and the
new bidder's identities. -/
theorem process_bid_ok_shape (env : Effect → Bool) (acc : BidAccounts)
    (auction : Auction) (now : Int) (pda : Pubkey) (price : Nat)
    (tr : List Effect) (a' : Auction)
    (h : process_bid env acc auction now pda price = (tr, .ok a')) :
    auction.price < price ∧
      a' = { auction with
        price := price
        highest_bidder_pubkey := acc.bidder
        highest_bidder_ft_temp_pubkey := acc.bidder_ft_temp
        highest_bidder_ft_returning_pubkey := acc.bidder_ft } := by
  simp only [process_bid] at h
  cases hs : acc.bidder_is_signer with
  | false =>
    simp only [hs, Bool.not_false, eq_self_iff_true, if_true] at h
    exact Except.noConfusion (congrArg Prod.snd h)
  | true =>
  simp only [hs, Bool.not_true, Bool.false_eq_true, if_false] at h
  cases hi : auction.is_initialized with
  | false =>
    simp only [hi, Bool.not_false, eq_self_iff_true, if_true] at h
    exact Except.noConfusion (congrArg Prod.snd h)
  | true =>
  simp only [hi, Bool.not_true, Bool.false_eq_true, if_false] at h
  by_cases ht : auction.end_at ≤ now
  · rw [if_pos ht] at h
    exact Except.noConfusion (congrArg Prod.snd h)
  rw [if_neg ht] at h
  by_cases hp : price ≤ auction.price
  · rw [if_pos hp] at h
    exact Except.noConfusion (congrArg Prod.snd h)
  rw [if_neg hp] at h
  by_cases h5 : auction.highest_bidder_ft_temp_pubkey = acc.highest_bidder_ft_temp
  case neg =>
    rw [if_pos h5] at h
    exact Except.noConfusion (congrArg Prod.snd h)
  rw [if_neg (not_not_intro h5)] at h
  by_cases h6 : auction.highest_bidder_ft_returning_pubkey =
    acc.highest_bidder_ft_returning
  case neg =>
    rw [if_pos h6] at h
    exact Except.noConfusion (congrArg Prod.snd h)
  rw [if_neg (not_not_intro h6)] at h
  by_cases h7 : auction.highest_bidder_pubkey = acc.highest_bidder
  case neg =>
    rw [if_pos h7] at h
    exact Except.noConfusion (congrArg Prod.snd h)
  rw [if_neg (not_not_intro h7)] at h
  by_cases h8 : auction.highest_bidder_pubkey = acc.bidder
  · rw [if_pos h8] at h
    exact Except.noConfusion (congrArg Prod.snd h)
  rw [if_neg h8] at h
  by_cases htok : acc.token_program = spl_token_id
  case neg =>
    rw [if_pos htok] at h
    exact Except.noConfusion (congrArg Prod.snd h)
  rw [if_neg (not_not_intro htok)] at h
  cases he1 : env (Effect.transfer acc.bidder_ft acc.bidder_ft_temp acc.bidder
      price) with
  | false =>
    simp only [he1, Bool.not_false, eq_self_iff_true, if_true] at h
    exact Except.noConfusion (congrArg Prod.snd h)
  | true =>
  simp only [he1, Bool.not_true, Bool.false_eq_true, if_false] at h
  cases he2 : env (Effect.set_authority acc.bidder_ft_temp pda acc.bidder) with
  | false =>
    simp only [he2, Bool.not_false, eq_self_iff_true, if_true] at h
    exact Except.noConfusion (congrArg Prod.snd h)
  | true =>
  simp only [he2, Bool.not_true, Bool.false_eq_true, if_false] at h
  by_cases h12 : auction.highest_bidder_pubkey = Pubkey.default
  · rw [if_neg (not_not_intro h12)] at h
    exact ⟨not_le.mp hp, (Except.ok.inj (congrArg Prod.snd h)).symm⟩
  · rw [if_pos h12] at h
    simp only [close_temporary_ft, if_neg (not_not_intro htok)] at h
    exact ⟨not_le.mp hp, (Except.ok.inj (congrArg Prod.snd h)).symm⟩

/-- C1: a successful Bid that finds a previous highest bidder issues,
in order, the new bidder's escrow transfer and authority change, then
a refund transfer of exactly the previous stored current_price (not
the new price) from the previous bidder's temporary custody account to
the previous bidder's refund destination, then the close of that
temporary account crediting its rent to the previous bidder, and only
then the record write setting current_price = price and the new
bidder's identities. -/
theorem bid_refunds_previous_bidder_exactly (env : Effect → Bool)
    (acc : BidAccounts) (auction : Auction) (now : Int) (pda : Pubkey)
    (price : Nat)
    (hsig : acc.bidder_is_signer = true)
    (hinit : auction.is_initialized = true)
    (htime : now < auction.end_at)
    (hprice : auction.price < price)
    (hft : acc.highest_bidder_ft_temp = auction.highest_bidder_ft_temp_pubkey)
    (hret : acc.highest_bidder_ft_returning =
      auction.highest_bidder_ft_returning_pubkey)
    (hhb : acc.highest_bidder = auction.highest_bidder_pubkey)
    (hneq : auction.highest_bidder_pubkey ≠ acc.bidder)
    (htok : acc.token_program = spl_token_id)
    (henv : ∀ e, env e = true)
    (hprev : auction.highest_bidder_pubkey ≠ Pubkey.default) :
    process_bid env acc auction now pda price =
      ([Effect.transfer acc.bidder_ft acc.bidder_ft_temp acc.bidder price,
        Effect.set_authority acc.bidder_ft_temp pda acc.bidder,
        Effect.transfer auction.highest_bidder_ft_temp_pubkey
          auction.highest_bidder_ft_returning_pubkey pda auction.price,
        Effect.close_account auction.highest_bidder_ft_temp_pubkey
          auction.highest_bidder_pubkey pda,
        Effect.write_record { auction with
          price := price
          highest_bidder_pubkey := acc.bidder
          highest_bidder_ft_temp_pubkey := acc.bidder_ft_temp
          highest_bidder_ft_returning_pubkey := acc.bidder_ft }],
       .ok { auction with
          price := price
          highest_bidder_pubkey := acc.bidder
          highest_bidder_ft_temp_pubkey := acc.bidder_ft_temp
          highest_bidder_ft_returning_pubkey := acc.bidder_ft }) := by
  have hts : ¬ (auction.end_at ≤ now) := not_le.mpr htime
  have hps : ¬ (price ≤ auction.price) := not_le.mpr hprice
  simp only [process_bid, close_temporary_ft, hsig, hinit, hft, hret, hhb,
    htok, henv, if_neg hts, if_neg hps, if_neg hneq, if_pos hprev, ne_eq,
    Bool.not_true, Bool.false_eq_true, if_false, eq_self_iff_true, not_true,
    ite_false, ite_true, not_false_eq_true, List.cons_append, List.nil_append]

/-- C1 witness: the spec's scenario, bidder 2 bidding 200 over bidder
1's standing 150: bidder 1 is refunded exactly 150 and custody 11 is
closed to bidder 1 before the record write. -/
theorem bid_refunds_previous_bidder_exactly_witness :
    process_bid env_all acc_bid2 auction_after_bid1 2000 99 200 =
      ([Effect.transfer 22 21 2 200,
        Effect.set_authority 21 99 2,
        Effect.transfer 11 12 99 150,
        Effect.close_account 11 1 99,
        Effect.write_record auction_after_bid2], .ok auction_after_bid2) :=
  bid_refunds_previous_bidder_exactly env_all acc_bid2 auction_after_bid1
    2000 99 200 rfl rfl (by decide) (by decide) rfl rfl rfl (by decide) rfl
    (fun _ => rfl) (by decide)

/-- C4: every accepted Bid leaves the record's current price strictly
greater than it was before the bid, so over any sequence of accepted
bids the price is strictly increasing. -/
theorem bid_price_strictly_increases (env : Effect → Bool) (acc : BidAccounts)
    (auction : Auction) (now : Int) (pda : Pubkey) (price : Nat)
    (tr : List Effect) (a' : Auction)
    (h : process_bid env acc auction now pda price = (tr, .ok a')) :
    auction.price < a'.price := by
  obtain ⟨hlt, ha⟩ := process_bid_ok_shape env acc auction now pda price tr a' h
  rw [ha]
  exact hlt

/-- C4 witness: the accepted Bid(200) over the standing 150 raises
the stored price. -/
theorem bid_price_strictly_increases_witness :
    auction_after_bid1.price < auction_after_bid2.price :=
  bid_price_strictly_increases env_all acc_bid2 auction_after_bid1 2000 99 200
    [Effect.transfer 22 21 2 200, Effect.set_authority 21 99 2,
     Effect.transfer 11 12 99 150, Effect.close_account 11 1 99,
     Effect.write_record auction_after_bid2] auction_after_bid2 (by decide)

/-- C6: against an initialized record inside the bidding window, a
bid whose price is not strictly greater than the stored current price
fails with InsufficientBidPrice, with no effect issued (the record is
untouched); a bid is accepted only when price > current_price. -/
theorem bid_rejects_underbid (env : Effect → Bool) (acc : BidAccounts)
    (auction : Auction) (now : Int) (pda : Pubkey) (price : Nat)
    (hsig : acc.bidder_is_signer = true)
    (hinit : auction.is_initialized = true)
    (htime : now < auction.end_at) :
    (price ≤ auction.price →
      process_bid env acc auction now pda price =
        ([], .error (.Custom .InsufficientBidPrice))) ∧
    (∀ tr a', process_bid env acc auction now pda price = (tr, .ok a') →
      auction.price < price) := by
  constructor
  · intro hle
    have hts : ¬ (auction.end_at ≤ now) := not_le.mpr htime
    simp only [process_bid, hsig, hinit, Bool.not_true, Bool.false_eq_true,
      if_false, if_neg hts, if_pos hle]
  · intro tr a' h
    exact (process_bid_ok_shape env acc auction now pda price tr a' h).1

/-- C6 witness: Bid(150) equal to the standing price 150 fails with
InsufficientBidPrice and issues nothing. -/
theorem bid_rejects_underbid_witness :
    process_bid env_all acc_bid2 auction_after_bid1 2000 99 150 =
      ([], .error (.Custom .InsufficientBidPrice)) :=
  (bid_rejects_underbid env_all acc_bid2 auction_after_bid1 2000 99 150 rfl rfl
    (by decide)).1 (by decide)

/-- C7: any Bid against an initialized record at a time at or past
auction_end fails with InactiveAuction regardless of the price, with
no effect issued: the record and all balances are untouched. -/
theorem bid_rejects_after_end (env : Effect → Bool) (acc : BidAccounts)
    (auction : Auction) (now : Int) (pda : Pubkey) (price : Nat)
    (hsig : acc.bidder_is_signer = true)
    (hinit : auction.is_initialized = true)
    (htime : auction.end_at ≤ now) :
    process_bid env acc auction now pda price =
      ([], .error (.Custom .InactiveAuction)) := by
  simp only [process_bid, hsig, hinit, Bool.not_true, Bool.false_eq_true,
    if_false, if_pos htime]

/-- C7 witness: a Bid(200) at time 5000, past the end time 4600,
fails with InactiveAuction and issues nothing. -/
theorem bid_rejects_after_end_witness :
    process_bid env_all acc_bid2 auction_after_bid1 5000 99 200 =
      ([], .error (.Custom .InactiveAuction)) :=
  bid_rejects_after_end env_all acc_bid2 auction_after_bid1 5000 99 200 rfl rfl
    (by decide)

/-- C2 counterexample: bidder 2 outbids bidder 1 under an environment
that reports failure of the refund transfer (150 units from custody
11 to destination 12 under authority 99); the Bid still issues that
call and returns ok, so the refund sub-call's error result is
discarded rather than returned. -/
theorem bid_ignores_refund_failure_cx :
    env_no_refund (Effect.transfer 11 12 99 150) = false ∧
    Effect.transfer 11 12 99 150 ∈
      (process_bid env_no_refund acc_bid2 auction_after_bid1 2000 99 200).1 ∧
    (process_bid env_no_refund acc_bid2 auction_after_bid1 2000 99 200).2 =
      .ok auction_after_bid2 := by
  refine ⟨rfl, by decide, by decide⟩

/-- C2 amended: failures of the calls checked with the question-mark
operator are returned (a failing new-bidder transfer aborts Bid with
that error), but the refund invoke in Bid and the close_account
invokes inside close_temporary_ft and close_escrow drop their
results: Bid's outcome is identical under any two environments that
agree on the two checked calls, close_temporary_ft always reports
success, and close_escrow's result depends only on the lamport
overflow check. -/
theorem bid_subcall_failure_policy (env env2 : Effect → Bool)
    (acc : BidAccounts) (auction : Auction) (now : Int) (pda : Pubkey)
    (price : Nat)
    (hsig : acc.bidder_is_signer = true)
    (hinit : auction.is_initialized = true)
    (htime : now < auction.end_at)
    (hprice : auction.price < price)
    (hft : acc.highest_bidder_ft_temp = auction.highest_bidder_ft_temp_pubkey)
    (hret : acc.highest_bidder_ft_returning =
      auction.highest_bidder_ft_returning_pubkey)
    (hhb : acc.highest_bidder = auction.highest_bidder_pubkey)
    (hneq : auction.highest_bidder_pubkey ≠ acc.bidder)
    (htok : acc.token_program = spl_token_id) :
    (env (Effect.transfer acc.bidder_ft acc.bidder_ft_temp acc.bidder price) =
        false →
      process_bid env acc auction now pda price =
        ([Effect.transfer acc.bidder_ft acc.bidder_ft_temp acc.bidder price],
         .error .ExternalCallFailed)) ∧
    (env (Effect.transfer acc.bidder_ft acc.bidder_ft_temp acc.bidder price) =
        env2 (Effect.transfer acc.bidder_ft acc.bidder_ft_temp acc.bidder
          price) →
     env (Effect.set_authority acc.bidder_ft_temp pda acc.bidder) =
        env2 (Effect.set_authority acc.bidder_ft_temp pda acc.bidder) →
      process_bid env acc auction now pda price =
        process_bid env2 acc auction now pda price) ∧
    (∀ ft_temp rent_dest pda2 : Pubkey,
      close_temporary_ft spl_token_id ft_temp rent_dest pda2 =
        ([Effect.close_account ft_temp rent_dest pda2], .ok ())) ∧
    (∀ nft_temp exhibitor pda2 : Pubkey, ∀ el sl : Nat, el + sl < 2 ^ 64 →
      close_escrow spl_token_id nft_temp exhibitor pda2 el sl =
        ([Effect.close_account nft_temp exhibitor pda2,
          Effect.credit_lamports exhibitor sl,
          Effect.clear_escrow_storage], .ok ())) := by
  have hts : ¬ (auction.end_at ≤ now) := not_le.mpr htime
  have hps : ¬ (price ≤ auction.price) := not_le.mpr hprice
  refine ⟨?_, ?_, ?_, ?_⟩
  · intro he1
    simp only [process_bid, hsig, hinit, hft, hret, hhb, htok, he1,
      if_neg hts, if_neg hps, if_neg hneq, ne_eq, Bool.not_true,
      Bool.false_eq_true, if_false, eq_self_iff_true, not_true, ite_false,
      ite_true, Bool.not_false, if_true, not_false_eq_true]
  · intro h1 h2
    simp only [process_bid, h1, h2]
  · intro ft_temp rent_dest pda2
    simp only [close_temporary_ft, ne_eq, eq_self_iff_true, not_true,
      ite_false, if_false]
  · intro nft_temp exhibitor pda2 el sl hlt
    simp only [close_escrow, ne_eq, eq_self_iff_true, not_true, ite_false,
      if_false, if_pos hlt]

/-- C2 amended witness: the environment failing only the refund call
and the all-success environment agree on the two checked calls, so
the Bid's result is identical under both. -/
theorem bid_subcall_failure_policy_witness :
    process_bid env_no_refund acc_bid2 auction_after_bid1 2000 99 200 =
      process_bid env_all acc_bid2 auction_after_bid1 2000 99 200 :=
  (bid_subcall_failure_policy env_no_refund env_all acc_bid2
    auction_after_bid1 2000 99 200 rfl rfl (by decide) (by decide) rfl rfl rfl
    (by decide) rfl).2.1 rfl rfl

/-- A freshly opened auction with asking price 100 ending at 4600 and
no bid yet: all three bidder identities are the null key. -/
def auction_open : Auction :=
  { is_initialized := true
    exhibitor_pubkey := 5
    exhibiting_nft_temp_pubkey := 6
    exhibitor_ft_receiving_pubkey := 7
    price := 100
    end_at := 4600
    highest_bidder_pubkey := 0
    highest_bidder_ft_temp_pubkey := 0
    highest_bidder_ft_returning_pubkey := 0 }

/-- Bid accounts of the first bidder (key 1, funds in 12, temporary
custody 11), supplying null prior-bidder references. -/
def acc_bid1 : BidAccounts :=
  { bidder_is_signer := true
    bidder := 1
    highest_bidder := 0
    highest_bidder_ft_temp := 0
    highest_bidder_ft_returning := 0
    bidder_ft_temp := 11
    bidder_ft := 12
    token_program := spl_token_id }

/-- An initialized bid-free record (null highest_bidder) whose
stored bidder-custody field holds the stale non-null key 9, as Open
on an uninitialized buffer with stale bidder bytes produces. -/
def stale_open_record : Auction :=
  { auction_open with highest_bidder_ft_temp_pubkey := 9 }

/-- Bidder 1's accounts supplying the non-null prior-custody
reference 9 that matches the stale stored field. -/
def acc_bid_stale : BidAccounts :=
  { acc_bid1 with highest_bidder_ft_temp := 9 }

/-- The record after bidder 1's accepted Bid(150) on
`stale_open_record`. -/
def stale_open_after_bid : Auction :=
  { stale_open_record with
    price := 150
    highest_bidder_pubkey := 1
    highest_bidder_ft_temp_pubkey := 11
    highest_bidder_ft_returning_pubkey := 12 }

/-- C10 counterexample: against a record with null highest_bidder but
the stale non-null stored custody field 9, a Bid supplying the
non-null reference 9 is accepted rather than failing with
InvalidInstruction: the three checks compare the supplied references
against the stored fields, not against the null identity. -/
theorem first_bid_nonnull_stored_ref_accepted_cx :
    stale_open_record.highest_bidder_pubkey = Pubkey.default ∧
    acc_bid_stale.highest_bidder_ft_temp ≠ Pubkey.default ∧
    (process_bid env_all acc_bid_stale stale_open_record 2000 99 150).2 =
      .ok stale_open_after_bid := by
  refine ⟨rfl, by decide, by decide⟩

/-- C10 amended: a Bid against a record with no previous bidder
(stored highest_bidder is the null identity) requires each of the
three supplied prior-bidder references to equal the corresponding
stored field — otherwise it fails with InvalidInstruction with no
effect issued; on a record that has never accepted a bid through the
documented lifecycle the stored fields are null, so there the
supplied references must be null.  When the three references match,
the accepted bid issues only the new bidder's transfer, the
authority change and the record write: no refund transfer and no
temporary-account close before the record is overwritten. -/
theorem first_bid_checks_stored_refs (env : Effect → Bool)
    (acc : BidAccounts) (auction : Auction) (now : Int) (pda : Pubkey)
    (price : Nat)
    (hsig : acc.bidder_is_signer = true)
    (hinit : auction.is_initialized = true)
    (htime : now < auction.end_at)
    (hprice : auction.price < price)
    (hb0 : auction.highest_bidder_pubkey = Pubkey.default) :
    ((auction.highest_bidder_ft_temp_pubkey ≠ acc.highest_bidder_ft_temp ∨
      auction.highest_bidder_ft_returning_pubkey ≠
        acc.highest_bidder_ft_returning ∨
      auction.highest_bidder_pubkey ≠ acc.highest_bidder) →
      process_bid env acc auction now pda price =
        ([], .error (.Custom .InvalidInstruction))) ∧
    (acc.highest_bidder_ft_temp = auction.highest_bidder_ft_temp_pubkey →
     acc.highest_bidder_ft_returning =
       auction.highest_bidder_ft_returning_pubkey →
     acc.highest_bidder = auction.highest_bidder_pubkey →
     acc.bidder ≠ Pubkey.default →
     acc.token_program = spl_token_id →
     (∀ e, env e = true) →
      process_bid env acc auction now pda price =
        ([Effect.transfer acc.bidder_ft acc.bidder_ft_temp acc.bidder price,
          Effect.set_authority acc.bidder_ft_temp pda acc.bidder,
          Effect.write_record { auction with
            price := price
            highest_bidder_pubkey := acc.bidder
            highest_bidder_ft_temp_pubkey := acc.bidder_ft_temp
            highest_bidder_ft_returning_pubkey := acc.bidder_ft }],
         .ok { auction with
            price := price
            highest_bidder_pubkey := acc.bidder
            highest_bidder_ft_temp_pubkey := acc.bidder_ft_temp
            highest_bidder_ft_returning_pubkey := acc.bidder_ft })) := by
  have hts : ¬ (auction.end_at ≤ now) := not_le.mpr htime
  have hps : ¬ (price ≤ auction.price) := not_le.mpr hprice
  constructor
  · intro hmis
    by_cases hA : auction.highest_bidder_ft_temp_pubkey =
      acc.highest_bidder_ft_temp
    case neg =>
      simp only [process_bid, hsig, hinit, Bool.not_true, Bool.false_eq_true,
        if_false, if_neg hts, if_neg hps, if_pos hA]
    by_cases hB : auction.highest_bidder_ft_returning_pubkey =
      acc.highest_bidder_ft_returning
    case neg =>
      simp only [process_bid, hsig, hinit, Bool.not_true, Bool.false_eq_true,
        if_false, if_neg hts, if_neg hps, if_neg (not_not_intro hA),
        if_pos hB]
    by_cases hC : auction.highest_bidder_pubkey = acc.highest_bidder
    case neg =>
      simp only [process_bid, hsig, hinit, Bool.not_true, Bool.false_eq_true,
        if_false, if_neg hts, if_neg hps, if_neg (not_not_intro hA),
        if_neg (not_not_intro hB), if_pos hC]
    rcases hmis with hm | hm | hm
    exacts [absurd hA hm, absurd hB hm, absurd hC hm]
  · intro h1 h2 h3 hbne htok henv
    have hc1 : ¬ (auction.highest_bidder_ft_temp_pubkey ≠
        acc.highest_bidder_ft_temp) := by
      rw [h1]
      exact not_not_intro rfl
    have hc2 : ¬ (auction.highest_bidder_ft_returning_pubkey ≠
        acc.highest_bidder_ft_returning) := by
      rw [h2]
      exact not_not_intro rfl
    have hc3 : ¬ (auction.highest_bidder_pubkey ≠ acc.highest_bidder) := by
      rw [h3]
      exact not_not_intro rfl
    have hc4 : ¬ (auction.highest_bidder_pubkey = acc.bidder) := by
      rw [hb0]
      exact fun hh => hbne hh.symm
    have hc5 : ¬ (auction.highest_bidder_pubkey ≠ Pubkey.default) :=
      not_not_intro hb0
    simp only [process_bid, hsig, hinit, htok, henv, Bool.not_true,
      Bool.false_eq_true, if_false, if_neg hts, if_neg hps, if_neg hc1,
      if_neg hc2, if_neg hc3, if_neg hc4, if_neg hc5, ne_eq,
      eq_self_iff_true, not_true, ite_false, ite_true, Bool.not_false,
      if_true, not_false_eq_true]

/-- C10 amended witness: bidder 1's Bid(150) on the stale bid-free
record, supplying the matching stored references, succeeds and issues
exactly the new bidder's transfer, the authority change and the
record write. -/
theorem first_bid_checks_stored_refs_witness :
    process_bid env_all acc_bid_stale stale_open_record 2000 99 150 =
      ([Effect.transfer 12 11 1 150, Effect.set_authority 11 99 1,
        Effect.write_record stale_open_after_bid],
       .ok stale_open_after_bid) :=
  (first_bid_checks_stored_refs env_all acc_bid_stale stale_open_record 2000
    99 150 rfl rfl (by decide) (by decide) rfl).2 rfl rfl rfl (by decide) rfl
    (fun _ => rfl)

/-- Exhibit accounts: exhibitor 5 holding the collectible in 8,
temporary custody 6, currency payout destination 7. -/
def acc_exhibit : ExhibitAccounts :=
  { exhibitor_is_signer := true
    exhibitor := 5
    exhibitor_nft := 8
    exhibitor_nft_temp := 6
    exhibitor_ft_receiving := 7
    token_program := spl_token_id }

/-- An all-zero escrow buffer parsed as a record. -/
def zero_record : Auction :=
  { is_initialized := false
    exhibitor_pubkey := 0
    exhibiting_nft_temp_pubkey := 0
    exhibitor_ft_receiving_pubkey := 0
    price := 0
    end_at := 0
    highest_bidder_pubkey := 0
    highest_bidder_ft_temp_pubkey := 0
    highest_bidder_ft_returning_pubkey := 0 }

/-- An uninitialized buffer (flag off) whose bidder field holds the
stale non-null key 7. -/
def stale_record : Auction := { zero_record with highest_bidder_pubkey := 7 }

/-- What Open(100, 3600) at time 1000 produces on `stale_record`. -/
def open_stale_result : Auction :=
  { is_initialized := true
    exhibitor_pubkey := 5
    exhibiting_nft_temp_pubkey := 6
    exhibitor_ft_receiving_pubkey := 7
    price := 100
    end_at := 4600
    highest_bidder_pubkey := 7
    highest_bidder_ft_temp_pubkey := 0
    highest_bidder_ft_returning_pubkey := 0 }

/-- C5 counterexample: on an uninitialized (flag = false) buffer whose
highest-bidder bytes hold the non-null key 7, Open(100, 3600) at time
1000 succeeds but the resulting record's highest_bidder is still 7,
not the null identity: process_exhibit never writes the bidder
fields. -/
theorem open_keeps_stale_highest_bidder_cx :
    stale_record.is_initialized = false ∧
    (process_exhibit env_all acc_exhibit true stale_record 1000 99 100
      3600).2 = .ok open_stale_result ∧
    open_stale_result.highest_bidder_pubkey ≠ Pubkey.default := by
  refine ⟨rfl, by decide, by decide⟩

/-- C5 amended: a successful Open writes initialized = true, the
exhibitor identities, current_price = initial_price and auction_end =
the wrapping signed-64-bit sum of now and duration_seconds (the
duration reinterpreted as a signed 64-bit value; the sum is exact
whenever it fits in i64, as in the spec's scenario), and leaves every
bidder field exactly as parsed from the pre-existing buffer — so
highest_bidder is the null identity when the uninitialized buffer is
all-zero, as in the spec's lifecycle. -/
theorem open_writes_record (env : Effect → Bool) (acc : ExhibitAccounts)
    (stored : Auction) (now : Int) (pda : Pubkey)
    (initial_price duration : Nat)
    (hsig : acc.exhibitor_is_signer = true)
    (hinit : stored.is_initialized = false)
    (htok : acc.token_program = spl_token_id)
    (henv : ∀ e, env e = true) :
    process_exhibit env acc true stored now pda initial_price duration =
      ([Effect.write_record { stored with
          is_initialized := true
          exhibitor_pubkey := acc.exhibitor
          exhibiting_nft_temp_pubkey := acc.exhibitor_nft_temp
          exhibitor_ft_receiving_pubkey := acc.exhibitor_ft_receiving
          price := initial_price
          end_at := i64_wrap (now + i64_of_u64 duration) },
        Effect.transfer acc.exhibitor_nft acc.exhibitor_nft_temp
          acc.exhibitor 1,
        Effect.set_authority acc.exhibitor_nft_temp pda acc.exhibitor],
       .ok { stored with
          is_initialized := true
          exhibitor_pubkey := acc.exhibitor
          exhibiting_nft_temp_pubkey := acc.exhibitor_nft_temp
          exhibitor_ft_receiving_pubkey := acc.exhibitor_ft_receiving
          price := initial_price
          end_at := i64_wrap (now + i64_of_u64 duration) }) := by
  simp only [process_exhibit, hsig, hinit, htok, henv, Bool.not_true,
    Bool.not_false, Bool.false_eq_true, if_false, if_true, ite_true,
    ite_false, ne_eq, eq_self_iff_true, not_true, not_false_eq_true]

/-- C5 amended witness: the spec's scenario on an all-zero buffer:
Open(100, 3600) at time 1000 yields current_price 100, auction_end
4600 and null highest_bidder. -/
theorem open_writes_record_witness :
    process_exhibit env_all acc_exhibit true zero_record 1000 99 100 3600 =
      ([Effect.write_record auction_open,
        Effect.transfer 8 6 5 1,
        Effect.set_authority 6 99 5], .ok auction_open) :=
  open_writes_record env_all acc_exhibit zero_record 1000 99 100 3600 rfl rfl
    rfl (fun _ => rfl)

/-- C9: a Cancel by the signing exhibitor whose supplied exhibitor
and collectible-custody references match the stored record succeeds
exactly when no bid has been accepted (stored highest_bidder is the
null identity); with a standing bid it fails with AlreadyBid and
issues nothing, leaving the record untouched.  The success direction
holds in an environment where the external calls succeed and the rent
consolidation does not overflow a u64. -/
theorem cancel_succeeds_iff_no_bid (env : Effect → Bool)
    (acc : CancelAccounts) (auction : Auction) (pda : Pubkey)
    (nft_temp_amount exhibitor_lamports escrow_lamports : Nat)
    (hsig : acc.exhibitor_is_signer = true)
    (hinit : auction.is_initialized = true)
    (hex : acc.exhibitor = auction.exhibitor_pubkey)
    (htemp : acc.exhibiting_nft_temp = auction.exhibiting_nft_temp_pubkey)
    (htok : acc.token_program = spl_token_id)
    (henv : ∀ e, env e = true)
    (hlam : exhibitor_lamports + escrow_lamports < 2 ^ 64) :
    ((process_cancel env acc auction pda nft_temp_amount exhibitor_lamports
        escrow_lamports).2 = .ok () ↔
      auction.highest_bidder_pubkey = Pubkey.default) ∧
    (auction.highest_bidder_pubkey ≠ Pubkey.default →
      process_cancel env acc auction pda nft_temp_amount exhibitor_lamports
        escrow_lamports = ([], .error (.Custom .AlreadyBid))) := by
  have hc1 : ¬ (auction.exhibitor_pubkey ≠ acc.exhibitor) := by
    rw [hex]
    exact not_not_intro rfl
  have hc2 : ¬ (auction.exhibiting_nft_temp_pubkey ≠
      acc.exhibiting_nft_temp) := by
    rw [htemp]
    exact not_not_intro rfl
  by_cases hb : auction.highest_bidder_pubkey = Pubkey.default
  · have hres : process_cancel env acc auction pda nft_temp_amount
        exhibitor_lamports escrow_lamports =
        ([Effect.transfer auction.exhibiting_nft_temp_pubkey
            acc.exhibiting_nft_returning pda nft_temp_amount,
          Effect.close_account auction.exhibiting_nft_temp_pubkey
            auction.exhibitor_pubkey pda,
          Effect.credit_lamports auction.exhibitor_pubkey escrow_lamports,
          Effect.clear_escrow_storage], .ok ()) := by
      simp only [process_cancel, close_escrow, hsig, hinit, hex, htemp, htok,
        henv, Bool.not_true, Bool.false_eq_true, if_false, if_neg hc1,
        if_neg hc2, if_neg (not_not_intro hb), if_pos hlam, ne_eq,
        eq_self_iff_true, not_true, ite_false, ite_true, Bool.not_false,
        if_true, not_false_eq_true]
    constructor
    · exact ⟨fun _ => hb, fun _ => by rw [hres]⟩
    · intro hne
      exact absurd hb hne
  · have hres : process_cancel env acc auction pda nft_temp_amount
        exhibitor_lamports escrow_lamports =
        ([], .error (.Custom .AlreadyBid)) := by
      simp only [process_cancel, hsig, hinit, Bool.not_true,
        Bool.false_eq_true, if_false, if_neg hc1, if_neg hc2, if_pos hb]
    constructor
    · constructor
      · intro hok
        rw [hres] at hok
        exact Except.noConfusion hok
      · intro heq
        exact absurd heq hb
    · intro _
      exact hres

/-- Cancel accounts: exhibitor 5, collectible custody 6, collectible
return destination 8, with a standing bid recorded. -/
def acc_cancel : CancelAccounts :=
  { exhibitor_is_signer := true
    exhibitor := 5
    exhibiting_nft_temp := 6
    exhibiting_nft_returning := 8
    token_program := spl_token_id }

/-- C9 witness: with bidder 1's bid standing, the exhibitor's Cancel
fails with AlreadyBid and issues nothing; on the bid-free record the
same Cancel succeeds. -/
theorem cancel_succeeds_iff_no_bid_witness :
    process_cancel env_all acc_cancel auction_after_bid1 99 1 500 300 =
      ([], .error (.Custom .AlreadyBid)) :=
  (cancel_succeeds_iff_no_bid env_all acc_cancel auction_after_bid1 99 1 500
    300 rfl rfl rfl rfl rfl (fun _ => rfl) (by decide)).2 (by decide)

/-- C8 amended: a Close against an initialized record before
auction_end fails with ActiveAuction after logging the wrapping
signed-64-bit difference auction_end - now, which equals the exact
number of seconds remaining whenever that difference fits in i64 (as
in the spec's scenario, 600); and ActiveAuction is returned exactly
when now < auction_end: once now >= auction_end the time gate passes
and no later step reports ActiveAuction. -/
theorem close_before_end_fails_active (env : Effect → Bool)
    (acc : CloseAccounts) (auction : Auction) (now : Int) (pda : Pubkey)
    (nft_temp_amount ft_temp_amount exhibitor_lamports escrow_lamports : Nat)
    (hsig : acc.highest_bidder_is_signer = true)
    (hinit : auction.is_initialized = true) :
    (now < auction.end_at →
      process_close env acc auction now pda nft_temp_amount ft_temp_amount
        exhibitor_lamports escrow_lamports =
        ([Effect.msg_remaining (i64_wrap (auction.end_at - now))],
         .error (.Custom .ActiveAuction))) ∧
    (now < auction.end_at → auction.end_at - now < 2 ^ 63 →
      process_close env acc auction now pda nft_temp_amount ft_temp_amount
        exhibitor_lamports escrow_lamports =
        ([Effect.msg_remaining (auction.end_at - now)],
         .error (.Custom .ActiveAuction))) ∧
    ((process_close env acc auction now pda nft_temp_amount ft_temp_amount
        exhibitor_lamports escrow_lamports).2 =
        .error (.Custom .ActiveAuction) →
      now < auction.end_at) := by
  refine ⟨?_, ?_, ?_⟩
  · intro ht
    simp only [process_close, hsig, hinit, Bool.not_true, Bool.false_eq_true,
      if_false, if_pos ht]
  · intro ht hfit
    have e1 : (2 : Int) ^ 63 = 9223372036854775808 := by norm_num
    have e2 : (2 : Int) ^ 64 = 18446744073709551616 := by norm_num
    have hwrap : i64_wrap (auction.end_at - now) = auction.end_at - now := by
      rw [e1] at hfit
      unfold i64_wrap
      rw [e1, e2, Int.emod_eq_of_lt (by omega) (by omega)]
      omega
    simp only [process_close, hsig, hinit, Bool.not_true, Bool.false_eq_true,
      if_false, if_pos ht, hwrap]
  · intro h
    by_contra hnot
    simp only [process_close, hsig, hinit, Bool.not_true, Bool.false_eq_true,
      if_false, if_neg hnot] at h
    by_cases h4 : auction.exhibitor_pubkey = acc.exhibitor
    case neg =>
      rw [if_pos h4] at h
      exact ProgramError.noConfusion (Except.error.inj h)
    rw [if_neg (not_not_intro h4)] at h
    by_cases h5 : auction.exhibiting_nft_temp_pubkey = acc.exhibiting_nft_temp
    case neg =>
      rw [if_pos h5] at h
      exact ProgramError.noConfusion (Except.error.inj h)
    rw [if_neg (not_not_intro h5)] at h
    by_cases h6 : auction.exhibitor_ft_receiving_pubkey =
      acc.exhibitor_ft_receiving
    case neg =>
      rw [if_pos h6] at h
      exact ProgramError.noConfusion (Except.error.inj h)
    rw [if_neg (not_not_intro h6)] at h
    by_cases h7 : auction.highest_bidder_ft_temp_pubkey =
      acc.highest_bidder_ft_temp
    case neg =>
      rw [if_pos h7] at h
      exact ProgramError.noConfusion (Except.error.inj h)
    rw [if_neg (not_not_intro h7)] at h
    by_cases h8 : auction.highest_bidder_pubkey = acc.highest_bidder
    case neg =>
      rw [if_pos h8] at h
      exact ProgramError.noConfusion (Except.error.inj h)
    rw [if_neg (not_not_intro h8)] at h
    by_cases htk : acc.token_program = spl_token_id
    case neg =>
      rw [if_pos htk] at h
      exact ProgramError.noConfusion (Except.error.inj h)
    rw [if_neg (not_not_intro htk)] at h
    cases he1 : env (Effect.transfer acc.exhibiting_nft_temp
        acc.highest_bidder_nft_receiving pda nft_temp_amount) with
    | false =>
      simp only [he1, Bool.not_false, eq_self_iff_true, if_true] at h
      exact ProgramError.noConfusion (Except.error.inj h)
    | true =>
    simp only [he1, Bool.not_true, Bool.false_eq_true, if_false] at h
    cases he2 : env (Effect.transfer acc.highest_bidder_ft_temp
        acc.exhibitor_ft_receiving pda ft_temp_amount) with
    | false =>
      simp only [he2, Bool.not_false, eq_self_iff_true, if_true] at h
      exact ProgramError.noConfusion (Except.error.inj h)
    | true =>
    simp only [he2, Bool.not_true, Bool.false_eq_true, if_false] at h
    simp only [close_temporary_ft, close_escrow,
      if_neg (not_not_intro htk)] at h
    by_cases hl : exhibitor_lamports + escrow_lamports < 2 ^ 64
    · rw [if_pos hl] at h
      exact Except.noConfusion h
    · rw [if_neg hl] at h
      exact AuctionError.noConfusion (ProgramError.Custom.inj
        (Except.error.inj h))

/-- Close accounts matching the record after bidder 1's bid: signer
and highest bidder 1, exhibitor 5, collectible custody 6, payout
destination 7, bidder custody 11, collectible delivery 13. -/
def acc_close : CloseAccounts :=
  { highest_bidder_is_signer := true
    highest_bidder := 1
    exhibitor := 5
    exhibiting_nft_temp := 6
    exhibitor_ft_receiving := 7
    highest_bidder_ft_temp := 11
    highest_bidder_nft_receiving := 13
    token_program := spl_token_id }

/-- C8 witness: the spec's scenario: Close at time 4000 against the
record ending at 4600 fails with ActiveAuction after logging the 600
seconds remaining. -/
theorem close_before_end_fails_active_witness :
    process_close env_all acc_close auction_after_bid1 4000 99 1 150 500 300 =
      ([Effect.msg_remaining 600], .error (.Custom .ActiveAuction)) :=
  (close_before_end_fails_active env_all acc_close auction_after_bid1 4000 99
    1 150 500 300 rfl rfl).2.1 (by decide) (by decide)

/-- The record after bidder 1's bid with the far-future end time
2^63 - 1, the largest i64 value. -/
def auction_far : Auction := { auction_after_bid1 with end_at := 2 ^ 63 - 1 }

/-- C8 counterexample: Close at time -2 against a record ending at
2^63 - 1 (both representable i64 inputs) fails with ActiveAuction but
logs the wrapped value -(2^63 - 1), not the exact number of seconds
remaining 2^63 + 1: the source's i64 subtraction overflows. -/
theorem close_remaining_wraps_cx :
    process_close env_all acc_close auction_far (-2) 99 1 150 500 300 =
      ([Effect.msg_remaining (-(2 ^ 63 - 1))],
       .error (.Custom .ActiveAuction)) ∧
    auction_far.end_at - (-2) = 2 ^ 63 + 1 ∧
    (-(2 ^ 63 - 1) : Int) ≠ 2 ^ 63 + 1 := by
  refine ⟨by decide, by decide, by decide⟩

/-- Cancel accounts whose exhibitor reference (4) does not match the
stored exhibitor (5). -/
def acc_cancel_wrong : CancelAccounts := { acc_cancel with exhibitor := 4 }

/-- C3 counterexample: a Cancel whose supplied exhibitor does not
match the stored record fails with the generic InvalidAccountData
error, not with InvalidInstruction as the claim states; the two
errors are distinct values. -/
theorem cancel_mismatch_error_kind_cx :
    auction_open.exhibitor_pubkey ≠ acc_cancel_wrong.exhibitor ∧
    process_cancel env_all acc_cancel_wrong auction_open 99 1 500 300 =
      ([], .error .InvalidAccountData) ∧
    ProgramError.InvalidAccountData ≠ .Custom .InvalidInstruction := by
  refine ⟨by decide, by decide, by decide⟩

/-- C3 amended: a supplied reference that does not match the stored
record aborts the operation before any effect, but the error kind
differs by operation: Bid's three prior-bidder checks fail with the
custom InvalidInstruction error, while Cancel's two and Close's five
stored-identity checks fail with the generic InvalidAccountData
error. -/
theorem reference_mismatch_error_kinds :
    (∀ (env : Effect → Bool) (acc : BidAccounts) (auction : Auction)
        (now : Int) (pda : Pubkey) (price : Nat),
      acc.bidder_is_signer = true → auction.is_initialized = true →
      now < auction.end_at → auction.price < price →
      (auction.highest_bidder_ft_temp_pubkey ≠ acc.highest_bidder_ft_temp ∨
       auction.highest_bidder_ft_returning_pubkey ≠
         acc.highest_bidder_ft_returning ∨
       auction.highest_bidder_pubkey ≠ acc.highest_bidder) →
      process_bid env acc auction now pda price =
        ([], .error (.Custom .InvalidInstruction))) ∧
    (∀ (env : Effect → Bool) (acc : CancelAccounts) (auction : Auction)
        (pda : Pubkey) (amt el sl : Nat),
      acc.exhibitor_is_signer = true → auction.is_initialized = true →
      (auction.exhibitor_pubkey ≠ acc.exhibitor ∨
       auction.exhibiting_nft_temp_pubkey ≠ acc.exhibiting_nft_temp) →
      process_cancel env acc auction pda amt el sl =
        ([], .error .InvalidAccountData)) ∧
    (∀ (env : Effect → Bool) (acc : CloseAccounts) (auction : Auction)
        (now : Int) (pda : Pubkey) (na fa el sl : Nat),
      acc.highest_bidder_is_signer = true → auction.is_initialized = true →
      auction.end_at ≤ now →
      (auction.exhibitor_pubkey ≠ acc.exhibitor ∨
       auction.exhibiting_nft_temp_pubkey ≠ acc.exhibiting_nft_temp ∨
       auction.exhibitor_ft_receiving_pubkey ≠ acc.exhibitor_ft_receiving ∨
       auction.highest_bidder_ft_temp_pubkey ≠ acc.highest_bidder_ft_temp ∨
       auction.highest_bidder_pubkey ≠ acc.highest_bidder) →
      process_close env acc auction now pda na fa el sl =
        ([], .error .InvalidAccountData)) := by
  refine ⟨?_, ?_, ?_⟩
  · intro env acc auction now pda price hsig hinit htime hprice hmis
    have hts : ¬ (auction.end_at ≤ now) := not_le.mpr htime
    have hps : ¬ (price ≤ auction.price) := not_le.mpr hprice
    by_cases hA : auction.highest_bidder_ft_temp_pubkey =
      acc.highest_bidder_ft_temp
    case neg =>
      simp only [process_bid, hsig, hinit, Bool.not_true, Bool.false_eq_true,
        if_false, if_neg hts, if_neg hps, if_pos hA]
    by_cases hB : auction.highest_bidder_ft_returning_pubkey =
      acc.highest_bidder_ft_returning
    case neg =>
      simp only [process_bid, hsig, hinit, Bool.not_true, Bool.false_eq_true,
        if_false, if_neg hts, if_neg hps, if_neg (not_not_intro hA),
        if_pos hB]
    by_cases hC : auction.highest_bidder_pubkey = acc.highest_bidder
    case neg =>
      simp only [process_bid, hsig, hinit, Bool.not_true, Bool.false_eq_true,
        if_false, if_neg hts, if_neg hps, if_neg (not_not_intro hA),
        if_neg (not_not_intro hB), if_pos hC]
    rcases hmis with hm | hm | hm
    exacts [absurd hA hm, absurd hB hm, absurd hC hm]
  · intro env acc auction pda amt el sl hsig hinit hmis
    by_cases hA : auction.exhibitor_pubkey = acc.exhibitor
    case neg =>
      simp only [process_cancel, hsig, hinit, Bool.not_true,
        Bool.false_eq_true, if_false, if_pos hA]
    by_cases hB : auction.exhibiting_nft_temp_pubkey = acc.exhibiting_nft_temp
    case neg =>
      simp only [process_cancel, hsig, hinit, Bool.not_true,
        Bool.false_eq_true, if_false, if_neg (not_not_intro hA), if_pos hB]
    rcases hmis with hm | hm
    exacts [absurd hA hm, absurd hB hm]
  · intro env acc auction now pda na fa el sl hsig hinit hle hmis
    have hlt : ¬ (now < auction.end_at) := not_lt.mpr hle
    by_cases hA : auction.exhibitor_pubkey = acc.exhibitor
    case neg =>
      simp only [process_close, hsig, hinit, Bool.not_true,
        Bool.false_eq_true, if_false, if_neg hlt, if_pos hA]
    by_cases hB : auction.exhibiting_nft_temp_pubkey = acc.exhibiting_nft_temp
    case neg =>
      simp only [process_close, hsig, hinit, Bool.not_true,
        Bool.false_eq_true, if_false, if_neg hlt, if_neg (not_not_intro hA),
        if_pos hB]
    by_cases hC : auction.exhibitor_ft_receiving_pubkey =
      acc.exhibitor_ft_receiving
    case neg =>
      simp only [process_close, hsig, hinit, Bool.not_true,
        Bool.false_eq_true, if_false, if_neg hlt, if_neg (not_not_intro hA),
        if_neg (not_not_intro hB), if_pos hC]
    by_cases hD : auction.highest_bidder_ft_temp_pubkey =
      acc.highest_bidder_ft_temp
    case neg =>
      simp only [process_close, hsig, hinit, Bool.not_true,
        Bool.false_eq_true, if_false, if_neg hlt, if_neg (not_not_intro hA),
        if_neg (not_not_intro hB), if_neg (not_not_intro hC), if_pos hD]
    by_cases hE : auction.highest_bidder_pubkey = acc.highest_bidder
    case neg =>
      simp only [process_close, hsig, hinit, Bool.not_true,
        Bool.false_eq_true, if_false, if_neg hlt, if_neg (not_not_intro hA),
        if_neg (not_not_intro hB), if_neg (not_not_intro hC),
        if_neg (not_not_intro hD), if_pos hE]
    rcases hmis with hm | hm | hm | hm | hm
    exacts [absurd hA hm, absurd hB hm, absurd hC hm, absurd hD hm,
      absurd hE hm]

/-- C3 amended witness: the mismatched-exhibitor Cancel aborts with
InvalidAccountData and no effect. -/
theorem reference_mismatch_error_kinds_witness :
    process_cancel env_all acc_cancel_wrong auction_open 99 1 500 300 =
      ([], .error .InvalidAccountData) :=
  reference_mismatch_error_kinds.2.1 env_all acc_cancel_wrong auction_open 99
    1 500 300 rfl rfl (Or.inl (by decide))
